import Mathlib

/-!
Verification of the real-time chat coordination core of MARINS-ROOM.

This file is a shallow embedding of the WebSocket chat subsystem:

* the per-connection handler (setupWebSocket / handleMessage /
  handleJoinSession / handleSendMessage / leaveSession / broadcastToSession /
  sendError) from the websocket module;
* the sliding-window rate limiter checkRateLimit from apps/api/src/lib/redis.ts;
* the response-generator wrapper getAIResponse from apps/api/src/lib/ai.ts;
* the payload schemas WsJoinSessionSchema and WsSendMessageSchema from
  packages/shared.

External effects are made explicit:

* The Prisma store (chat sessions and chat messages) is part of the model
  state: sessions as a map from id to record, messages as one list in
  creation order, so that findMany ordered by createdAt ascending is the
  filtered list and "take n" is List.take n (Prisma takes the first n rows
  in the requested order).
* Redis sorted sets (one per rate-limit key) are a map from key to the list
  of recorded scores (timestamps); member strings carry no information
  beyond their score, so only scores are kept.
* The AI HTTP call, the reachability of Redis and the success of message
  persistence are oracles in an environment record.  getAIResponse catches
  every failure of the underlying HTTP call and returns an empty content
  instead of raising, exactly as the source does.
* WebSocket transports are modelled as identifiers; every registered
  transport is taken to be in the OPEN ready-state, so sendError and
  broadcast delivery never skip a recipient.

A handler that raises (a rejected await escaping the handler) is modelled by
a thrown flag in its result; the message-event wrapper then emits the
INVALID_MESSAGE error envelope, as the surrounding try/catch does.  Effects
performed before the raise (already-recorded rate-limit attempts, state
updates) are kept, matching the mutation semantics of the source.
-/

/-- Message role, the Prisma enum with values USER, ASSISTANT, SYSTEM. -/
inductive Role where
  | user
  | assistant
  | system
deriving DecidableEq, Repr

/-- Embedding of the TypeScript expression role.toLowerCase() applied to the
stored role string. -/
def Role.lower : Role → String
  | .user => "user"
  | .assistant => "assistant"
  | .system => "system"

/-- Chat-session status, the Prisma enum with values ACTIVE and CLOSED. -/
inductive SessionStatus where
  | active
  | closed
deriving DecidableEq, Repr

/-- A ChatSession row.  Fields of the row that the chat subsystem never
reads or writes (visitor identity, display name, metadata, createdAt) are
omitted; updatedAt is kept because handleSendMessage writes it. -/
structure Session where
  id : String
  status : SessionStatus
  updatedAt : Nat
deriving DecidableEq, Repr

/-- A ChatMessage row.  Creation order (createdAt ascending) is the position
in the global message list of the model state; the numeric id stands for the
opaque unique id. -/
structure Message where
  id : Nat
  sessionId : String
  role : Role
  content : String
deriving DecidableEq, Repr

/-- The per-connection ClientState record of the websocket module: bound
session id (null until a join succeeds), admin flag, client ip.  The ws
handle itself is the key under which the record is stored. -/
structure ClientState where
  sessionId : Option String
  isAdmin : Bool
  ip : String
deriving DecidableEq, Repr

/-- Connection identifier, standing for the ws transport handle. -/
abbrev ConnId := Nat

/-- Result record of checkRateLimit. -/
structure RateLimitResult where
  allowed : Bool
  remaining : Nat
  resetIn : Nat
deriving DecidableEq, Repr

/-- Outcome of the external AI HTTP request, the oracle behind
getAIResponse:  the fetch can reject (network failure), return a non-ok
status, return a body without content, or return content text. -/
inductive AIOutcome where
  | networkFailure
  | httpError
  | emptyContent
  | ok (text : String)
deriving DecidableEq, Repr

/-- The AIResponse record returned by getAIResponse. -/
structure AIResponse where
  content : String
  error : Option String
deriving DecidableEq, Repr

/-- Embedding of getAIResponse from lib/ai.ts: every failure path of the
HTTP call is caught and turned into a response with empty content and an
error string; a present but empty content string is falsy in the source
check, hence reported as an empty response.  The function never raises.
The messages argument is what the source passes in the request body (after
the fixed system prompt); the outcome oracle decides the reply. -/
def getAIResponse (outcome : AIOutcome) (messages : List (String × String)) :
    AIResponse :=
  match outcome, messages with
  | .networkFailure, _ => { content := "", error := some "AI service unavailable" }
  | .httpError, _ => { content := "", error := some "Failed to get AI response" }
  | .emptyContent, _ => { content := "", error := some "Empty AI response" }
  | .ok text, _ =>
      if text = "" then { content := "", error := some "Empty AI response" }
      else { content := text, error := none }

/-- Environment of one handler run: configured admin secret, reachability of
the rate-limiter backing store, success of chatMessage.create calls, the AI
oracle, and the current time in milliseconds (Date.now()). -/
structure Env where
  adminApiKey : String
  redisUp : Bool
  persistOk : Bool
  aiOutcome : AIOutcome
  now : Nat

/-- Whole-system state: the clients map (ws handle to ClientState), the
sessionClients map (session id to the member list, insertion-ordered as a JS
Set iterates), the session store, the message store in creation order, the
per-key Redis sorted sets, and the id counter for created messages. -/
structure ServerState where
  clients : ConnId → Option ClientState
  sessionClients : String → Option (List ConnId)
  sessions : String → Option Session
  messages : List Message
  redis : String → List Nat
  nextMsgId : Nat

/-- Outbound envelope payloads (server to client). -/
inductive WsOut where
  | sessionJoined (session : Session) (messages : List Message)
  | messageReceived (m : Message)
  | aiResponse (m : Message)
  | typingStart (isAdmin : Bool)
  | typingStop (isAdmin : Bool)
  | error (code : String) (message : String)
deriving DecidableEq, Repr

/-- One observable step of a handler run: a direct send to one transport
(ws.send / sendError), an invocation of broadcastToSession for a session
with an optional excluded transport (delivery is to every member except the
excluded one, all transports being OPEN), or an invocation of the response
generator with the mapped history argument (pairs of lowercased role and
content). -/
inductive TraceItem where
  | send (target : ConnId) (payload : WsOut)
  | broadcast (sid : String) (payload : WsOut) (exclude : Option ConnId)
  | genCall (history : List (String × String))
deriving DecidableEq, Repr

/-- Payload of a JOIN_SESSION envelope after JSON decoding. -/
structure JoinPayload where
  sessionId : String
  isAdmin : Option Bool
  adminKey : Option String
deriving DecidableEq, Repr

/-- Inbound envelope, the closed set of recognized types plus the
unrecognized-type case carrying the received type string. -/
inductive WsIn where
  | joinSession (p : JoinPayload)
  | leaveSession
  | sendMessage (content : String)
  | typingStart
  | typingStop
  | unknown (typeName : String)
deriving DecidableEq, Repr

/-- A raw inbound frame: either JSON that fails to parse as an envelope, or
a decoded envelope. -/
inductive RawIn where
  | malformed
  | msg (m : WsIn)
deriving DecidableEq, Repr

/-- Result of one handler invocation: the post state, the emitted trace, and
whether an exception escaped the handler (to be caught by the message-event
wrapper). -/
structure HResult where
  st : ServerState
  tr : List TraceItem
  thrown : Bool

/-- Embedding of sendError: an ERROR envelope sent to one transport. -/
def sendError (c : ConnId) (code message : String) : TraceItem :=
  .send c (.error code message)

/-- Messages of one session in creation order: the embedding of
chatMessage.findMany filtered by sessionId and ordered by createdAt
ascending. -/
def messagesOf (st : ServerState) (sid : String) : List Message :=
  st.messages.filter (fun m => m.sessionId = sid)

/-- Store an updated ClientState under a ws handle (the source mutates the
shared record in place; here the map is updated). -/
def setClient (st : ServerState) (c : ConnId) (cs : ClientState) : ServerState :=
  { st with clients := fun k => if k = c then some cs else st.clients k }

/-- Embedding of leaveSession: delete the ws from the member set of the
session, removing the set when it becomes empty; no-op when the session has
no set. -/
def leaveSession (st : ServerState) (c : ConnId) (sid : String) : ServerState :=
  match st.sessionClients sid with
  | none => st
  | some l =>
      let l' := l.filter (fun x => x ≠ c)
      if l' = [] then
        { st with sessionClients := fun k => if k = sid then none else st.sessionClients k }
      else
        { st with sessionClients := fun k => if k = sid then some l' else st.sessionClients k }

/-- Insert the ws into the member set of the session, creating the set when
absent (Set.add keeps insertion order and ignores duplicates). -/
def joinSet (st : ServerState) (sid : String) (c : ConnId) : ServerState :=
  let cur := (st.sessionClients sid).getD []
  let cur' := if c ∈ cur then cur else cur ++ [c]
  { st with sessionClients := fun k => if k = sid then some cur' else st.sessionClients k }

/-- Embedding of checkRateLimit from lib/redis.ts, for a reachable store.
With now and windowStart as in the source (windowStart possibly negative,
hence computed in Int), the transaction removes every recorded score not
exceeding windowStart, counts the remaining scores before inserting, inserts
the current timestamp unconditionally, and reports allowed exactly when the
pre-insertion count is strictly below the limit.  The EXPIRE step only frees
storage for silent keys and does not affect the counting semantics, time
being passed in explicitly. -/
def checkRateLimit (redis : String → List Nat) (key : String)
    (limit windowSeconds now : Nat) : (String → List Nat) × RateLimitResult :=
  let redisKey := "ratelimit:" ++ key
  let windowStart : Int := (now : Int) - (windowSeconds : Int) * 1000
  let kept := (redis redisKey).filter (fun ts : Nat => decide (windowStart < (ts : Int)))
  let count := kept.length
  ( fun k => if k = redisKey then kept ++ [now] else redis k
  , { allowed := decide (count < limit)
    , remaining := limit - count - 1
    , resetIn := windowSeconds } )

/-- Hex-digit test used by the session-id format check. -/
def isHexDigit (c : Char) : Bool :=
  c.isDigit || ('a' ≤ c && c ≤ 'f') || ('A' ≤ c && c ≤ 'F')

/-- Split a character list on the hyphen character, the separator of the
uuid shape. -/
def splitDash : List Char → List (List Char)
  | [] => [[]]
  | c :: rest =>
      let r := splitDash rest
      if c = '-' then [] :: r
      else
        match r with
        | g :: gs => (c :: g) :: gs
        | [] => [[c]]

/-- Embedding of the uuid string check of WsJoinSessionSchema: five
hyphen-separated groups of hex digits with lengths 8-4-4-4-12. -/
def isUuid (s : String) : Bool :=
  let parts := splitDash s.toList
  parts.map List.length = [8, 4, 4, 4, 12]
    && parts.all (fun p => p.all isHexDigit)

/-- Embedding of WsSendMessageSchema: content is a string of 1 to 4000
units. -/
def validContent (content : String) : Bool :=
  1 ≤ content.length && content.length ≤ 4000

/-- The admin-key test of handleJoinSession: the check fails when adminKey
is absent or falsy (the empty string) or differs from the configured
secret. -/
def adminKeyOk (env : Env) (adminKey : Option String) : Bool :=
  match adminKey with
  | none => false
  | some k => k ≠ "" && k = env.adminApiKey

/-- Write the current time into the updatedAt field of a session row, the
embedding of chatSession.update with an updatedAt payload. -/
def updateSessionTime (st : ServerState) (sid : String) (now : Nat) : ServerState :=
  { st with sessions := fun k =>
      if k = sid then (st.sessions k).map (fun s => { s with updatedAt := now })
      else st.sessions k }

/-- Tail of handleJoinSession after the admin-key step (the source runs this
inline; it is split out here because the admin branch has already written
the mutated ClientState back before the session lookup).  Looks the session
up, reports SESSION_NOT_FOUND when absent, otherwise leaves the previous
session if any, binds the connection, inserts it into the member set and
sends the session plus full ordered history to the caller only. -/
def joinAfterAdmin (st : ServerState) (c : ConnId) (cs : ClientState)
    (p : JoinPayload) : HResult :=
  match st.sessions p.sessionId with
  | none => ⟨st, [sendError c "SESSION_NOT_FOUND" "Chat session not found"], false⟩
  | some s =>
      let st1 := match cs.sessionId with
        | some old => leaveSession st c old
        | none => st
      let cs' := { cs with sessionId := some p.sessionId }
      let st2 := setClient st1 c cs'
      let st3 := joinSet st2 p.sessionId c
      ⟨st3, [.send c (.sessionJoined s (messagesOf st3 p.sessionId))], false⟩

/-- Embedding of handleJoinSession: payload validation, admin-key
verification (mutating the admin flag on success before anything else),
then the join proper. -/
def handleJoinSession (env : Env) (st : ServerState) (c : ConnId)
    (cs : ClientState) (p : JoinPayload) : HResult :=
  if ¬ isUuid p.sessionId then
    ⟨st, [sendError c "VALIDATION_ERROR" "Invalid join session payload"], false⟩
  else if p.isAdmin = some true then
    if adminKeyOk env p.adminKey then
      let cs' := { cs with isAdmin := true }
      joinAfterAdmin (setClient st c cs') c cs' p
    else ⟨st, [sendError c "UNAUTHORIZED" "Invalid admin key"], false⟩
  else joinAfterAdmin st c cs p

/-- Embedding of handleSendMessage: binding check, payload validation,
rate-limit check (an unreachable store raises out of the handler), session
re-fetch with the combined missing-or-not-active test, persistence of the
user or admin message (a create failure raises out of the handler),
MESSAGE_RECEIVED broadcast, and for non-admin senders the typing bracket
around the generator call with the 20-row ascending history, persisting and
broadcasting the AI reply only when its content is non-empty; finally the
session timestamp update. -/
def handleSendMessage (env : Env) (st : ServerState) (c : ConnId)
    (cs : ClientState) (content : String) : HResult :=
  match cs.sessionId with
  | none => ⟨st, [sendError c "NOT_IN_SESSION" "You must join a session first"], false⟩
  | some sid =>
    if ¬ validContent content then
      ⟨st, [sendError c "VALIDATION_ERROR" "Invalid message payload"], false⟩
    else if ¬ env.redisUp then
      ⟨st, [], true⟩
    else
      let rl := checkRateLimit st.redis ("ws-message:" ++ cs.ip) 30 60 env.now
      let st := { st with redis := rl.1 }
      if ¬ rl.2.allowed then
        ⟨st, [sendError c "RATE_LIMITED" "Too many messages. Please slow down."], false⟩
      else
        match st.sessions sid with
        | none => ⟨st, [sendError c "SESSION_CLOSED" "This session has been closed"], false⟩
        | some s =>
          if s.status ≠ .active then
            ⟨st, [sendError c "SESSION_CLOSED" "This session has been closed"], false⟩
          else if ¬ env.persistOk then
            ⟨st, [], true⟩
          else
            let msg : Message :=
              { id := st.nextMsgId, sessionId := sid
              , role := if cs.isAdmin then .assistant else .user
              , content := if cs.isAdmin then "[Marin]: " ++ content else content }
            let st := { st with messages := st.messages ++ [msg]
                              , nextMsgId := st.nextMsgId + 1 }
            let tr0 := [TraceItem.broadcast sid (.messageReceived msg) none]
            if cs.isAdmin then
              ⟨updateSessionTime st sid env.now, tr0, false⟩
            else
              let history := ((messagesOf st sid).take 20).map
                (fun m => (m.role.lower, m.content))
              let ai := getAIResponse env.aiOutcome history
              let tr1 := tr0 ++
                [ .broadcast sid (.typingStart false) none
                , .genCall history
                , .broadcast sid (.typingStop false) none ]
              if ai.content ≠ "" then
                let aiMsg : Message :=
                  { id := st.nextMsgId, sessionId := sid
                  , role := .assistant, content := ai.content }
                let st := { st with messages := st.messages ++ [aiMsg]
                                  , nextMsgId := st.nextMsgId + 1 }
                ⟨updateSessionTime st sid env.now
                , tr1 ++ [.broadcast sid (.aiResponse aiMsg) none], false⟩
              else
                ⟨updateSessionTime st sid env.now, tr1, false⟩

/-- Embedding of handleMessage: look the ClientState up (silently dropping
frames from unregistered transports) and dispatch on the envelope type.
TYPING_START and TYPING_STOP broadcast the indicator, tagged with the admin
flag and excluding the sender, only when a session is bound; LEAVE_SESSION
removes the connection from its set and clears the binding; unknown types
produce UNKNOWN_MESSAGE_TYPE. -/
def handleMessage (env : Env) (st : ServerState) (c : ConnId) (m : WsIn) :
    HResult :=
  match st.clients c with
  | none => ⟨st, [], false⟩
  | some cs =>
    match m with
    | .joinSession p => handleJoinSession env st c cs p
    | .leaveSession =>
        match cs.sessionId with
        | some sid =>
            ⟨setClient (leaveSession st c sid) c { cs with sessionId := none }, [], false⟩
        | none => ⟨st, [], false⟩
    | .sendMessage content => handleSendMessage env st c cs content
    | .typingStart =>
        match cs.sessionId with
        | some sid => ⟨st, [.broadcast sid (.typingStart cs.isAdmin) (some c)], false⟩
        | none => ⟨st, [], false⟩
    | .typingStop =>
        match cs.sessionId with
        | some sid => ⟨st, [.broadcast sid (.typingStop cs.isAdmin) (some c)], false⟩
        | none => ⟨st, [], false⟩
    | .unknown t =>
        ⟨st, [sendError c "UNKNOWN_MESSAGE_TYPE" ("Unknown message type: " ++ t)], false⟩

/-- Embedding of the message-event wrapper of setupWebSocket: a JSON parse
failure, or any exception escaping handleMessage, is answered with the
INVALID_MESSAGE error envelope; effects already performed remain. -/
def onMessage (env : Env) (st : ServerState) (c : ConnId) (raw : RawIn) :
    ServerState × List TraceItem :=
  match raw with
  | .malformed => (st, [sendError c "INVALID_MESSAGE" "Failed to process message"])
  | .msg m =>
      let r := handleMessage env st c m
      if r.thrown then
        (r.st, r.tr ++ [sendError c "INVALID_MESSAGE" "Failed to process message"])
      else (r.st, r.tr)

/-- Embedding of the connection-event handler: register the transport with
an unbound, non-admin ClientState carrying the client ip. -/
def onConnect (st : ServerState) (c : ConnId) (ip : String) : ServerState :=
  { st with clients := fun k =>
      if k = c then some { sessionId := none, isAdmin := false, ip := ip }
      else st.clients k }

/-- Embedding of the close-event handler: leave the bound session if any,
then delete the ClientState. -/
def onClose (st : ServerState) (c : ConnId) : ServerState :=
  let st1 := match st.clients c with
    | some cs =>
        match cs.sessionId with
        | some sid => leaveSession st c sid
        | none => st
    | none => st
  { st1 with clients := fun k => if k = c then none else st1.clients k }

/-- The operations a transport can drive: connect, deliver one inbound
frame, disconnect. -/
inductive Op where
  | connect (c : ConnId) (ip : String)
  | message (c : ConnId) (raw : RawIn)
  | close (c : ConnId)

/-- Apply one operation to the system state. -/
def applyOp (env : Env) (st : ServerState) : Op → ServerState
  | .connect c ip => onConnect st c ip
  | .message c raw => (onMessage env st c raw).1
  | .close c => onClose st c

/-- The registry invariant of the session membership index: every recorded
member set is non-empty, and every member of the set of a session is a
registered connection whose ClientState is bound to exactly that session.
At-most-one-set membership follows from the second conjunct. -/
def RegistryInv (st : ServerState) : Prop :=
  (∀ sid l, st.sessionClients sid = some l → l ≠ []) ∧
  (∀ sid l c, st.sessionClients sid = some l → c ∈ l →
    ∃ cs, st.clients c = some cs ∧ cs.sessionId = some sid)

/-- Helper: any state satisfying the registry invariant places each
connection in at most one member set. -/
def AtMostOneSet (st : ServerState) : Prop :=
  ∀ c s1 s2 l1 l2, st.sessionClients s1 = some l1 →
    st.sessionClients s2 = some l2 → c ∈ l1 → c ∈ l2 → s1 = s2

/-- Trace-item test: a TYPING_START broadcast. -/
def isTypingStartB : TraceItem → Bool
  | .broadcast _ (.typingStart _) _ => true
  | _ => false

/-- Trace-item test: a TYPING_STOP broadcast. -/
def isTypingStopB : TraceItem → Bool
  | .broadcast _ (.typingStop _) _ => true
  | _ => false

/-- Trace-item test: a response-generator invocation. -/
def isGenCall : TraceItem → Bool
  | .genCall _ => true
  | _ => false

/-- A session id of valid uuid shape used by concrete runs. -/
def sid0 : String := "00000000-0000-4000-8000-000000000001"

/-- A second session id of valid uuid shape used by concrete runs. -/
def sid1 : String := "00000000-0000-4000-8000-000000000002"

/-- An ACTIVE session row with the first id. -/
def sess0 : Session := { id := sid0, status := .active, updatedAt := 0 }

/-- A ClientState bound to the first session with the given admin flag. -/
def csBound (adm : Bool) : ClientState :=
  { sessionId := some sid0, isAdmin := adm, ip := "9.9.9.9" }

/-- An unbound, non-admin ClientState. -/
def csUnbound : ClientState := { sessionId := none, isAdmin := false, ip := "9.9.9.9" }

/-- A state with one connection (id 0) bound to the one ACTIVE session. -/
def stBound (adm : Bool) : ServerState :=
  { clients := fun k => if k = 0 then some (csBound adm) else none
  , sessionClients := fun k => if k = sid0 then some [0] else none
  , sessions := fun k => if k = sid0 then some sess0 else none
  , messages := []
  , redis := fun _ => []
  , nextMsgId := 0 }

/-- A state with one unbound connection (id 0) and no sessions at all. -/
def stUnbound : ServerState :=
  { clients := fun k => if k = 0 then some csUnbound else none
  , sessionClients := fun _ => none
  , sessions := fun _ => none
  , messages := []
  , redis := fun _ => []
  , nextMsgId := 0 }

/-- A standard environment for concrete runs: secret "sekret", Redis
reachable, persistence succeeding, a generator returning text, time 100000
milliseconds. -/
def envStd : Env :=
  { adminApiKey := "sekret", redisUp := true, persistOk := true
  , aiOutcome := .ok "hi there", now := 100000 }

/-- An environment whose rate-limiter backing store is unreachable. -/
def envDown : Env := { envStd with redisUp := false }
/-- An environment whose message-persistence calls fail. -/
def envNoPersist : Env := { envStd with persistOk := false }
/-- A state whose one session already holds twenty messages, with the
non-admin connection 0 bound to it. -/
def stC1 : ServerState :=
  { clients := fun k => if k = 0 then some (csBound false) else none
  , sessionClients := fun k => if k = sid0 then some [0] else none
  , sessions := fun k => if k = sid0 then some sess0 else none
  , messages := (List.range 20).map
      (fun i => { id := i, sessionId := sid0, role := .user, content := "old" })
  , redis := fun _ => []
  , nextMsgId := 20 }
/-- One SendMessage step by one connection: the message-event wrapper
applied to a SEND_MESSAGE envelope. -/
def sendStep (env : Env) (c : ConnId) (content : String) (st : ServerState) :
    ServerState × List TraceItem :=
  onMessage env st c (.msg (.sendMessage content))

/-- Iterate sendStep, keeping the state. -/
def sendIter (env : Env) (c : ConnId) (content : String) :
    Nat → ServerState → ServerState
  | 0, st => st
  | k + 1, st => sendIter env c content k (sendStep env c content st).1

/-- C9: a TYPING_START or TYPING_STOP envelope from a connection with no
bound session produces nothing at all: no broadcast, no error envelope, no
state change. -/
theorem typing_unbound_silent (env : Env) (st : ServerState) (c : ConnId)
    (cs : ClientState) (hc : st.clients c = some cs)
    (hun : cs.sessionId = none) :
    onMessage env st c (.msg .typingStart) = (st, []) ∧
    onMessage env st c (.msg .typingStop) = (st, []) := by
  simp [onMessage, handleMessage, hc, hun]

/-- C9 witness: the silent-drop behaviour at a concrete unbound
connection. -/
theorem typing_unbound_silent_witness :
    onMessage envStd stUnbound 0 (.msg .typingStart) = (stUnbound, []) ∧
    onMessage envStd stUnbound 0 (.msg .typingStop) = (stUnbound, []) :=
  typing_unbound_silent envStd stUnbound 0 csUnbound rfl rfl

/-- C10: a SendMessage on a connection whose bound session id resolves to no
session in the store is answered with the SESSION_CLOSED error envelope (not
SESSION_NOT_FOUND), and nothing is persisted or broadcast. -/
theorem send_stale_session_closed (env : Env) (st : ServerState) (c : ConnId)
    (cs : ClientState) (sid : String) (content : String)
    (hc : st.clients c = some cs) (hsid : cs.sessionId = some sid)
    (hval : validContent content = true) (hred : env.redisUp = true)
    (hallow : (checkRateLimit st.redis ("ws-message:" ++ cs.ip) 30 60 env.now).2.allowed = true)
    (hs : st.sessions sid = none) :
    (onMessage env st c (.msg (.sendMessage content))).2 =
      [TraceItem.send c (.error "SESSION_CLOSED" "This session has been closed")] ∧
    (onMessage env st c (.msg (.sendMessage content))).1.messages = st.messages := by
  simp [onMessage, handleMessage, handleSendMessage, sendError, hc, hsid, hval,
    hred, hallow, hs]

/-- C10 witness: the stale-session behaviour at a concrete bound connection
whose session record is absent. -/
theorem send_stale_session_closed_witness :
    (onMessage envStd
        { stBound false with sessions := fun _ => none } 0
        (.msg (.sendMessage "hello"))).2 =
      [TraceItem.send 0 (.error "SESSION_CLOSED" "This session has been closed")] ∧
    (onMessage envStd
        { stBound false with sessions := fun _ => none } 0
        (.msg (.sendMessage "hello"))).1.messages = [] :=
  send_stale_session_closed envStd _ 0 (csBound false) sid0 "hello"
    rfl rfl (by decide) rfl (by decide) rfl

/-- C8: a SendMessage from an admin connection to an ACTIVE session under
the rate limit persists exactly one message, with role ASSISTANT and the
content prefixed by the attribution marker, broadcasts it, and emits no
generator call and no typing broadcast. -/
theorem admin_send_assistant_no_ai (env : Env) (st : ServerState) (c : ConnId)
    (cs : ClientState) (sid : String) (s : Session) (content : String)
    (hc : st.clients c = some cs) (hsid : cs.sessionId = some sid)
    (hadm : cs.isAdmin = true)
    (hval : validContent content = true) (hred : env.redisUp = true)
    (hallow : (checkRateLimit st.redis ("ws-message:" ++ cs.ip) 30 60 env.now).2.allowed = true)
    (hs : st.sessions sid = some s) (hact : s.status = .active)
    (hper : env.persistOk = true) :
    ∃ msg : Message,
      (onMessage env st c (.msg (.sendMessage content))).2 =
        [TraceItem.broadcast sid (.messageReceived msg) none] ∧
      msg.role = .assistant ∧
      msg.content = "[Marin]: " ++ content ∧
      (onMessage env st c (.msg (.sendMessage content))).1.messages =
        st.messages ++ [msg] ∧
      (∀ h, TraceItem.genCall h ∉ (onMessage env st c (.msg (.sendMessage content))).2) ∧
      (∀ s' b e, TraceItem.broadcast s' (.typingStart b) e ∉
        (onMessage env st c (.msg (.sendMessage content))).2) ∧
      (∀ s' b e, TraceItem.broadcast s' (.typingStop b) e ∉
        (onMessage env st c (.msg (.sendMessage content))).2) := by
  refine ⟨{ id := st.nextMsgId, sessionId := sid, role := .assistant
          , content := "[Marin]: " ++ content }, ?_⟩
  simp [onMessage, handleMessage, handleSendMessage, updateSessionTime,
    hc, hsid, hadm, hval, hred, hallow, hs, hact, hper]

/-- C8 witness: the admin-send behaviour at a concrete admin connection. -/
theorem admin_send_assistant_no_ai_witness :
    ∃ msg : Message,
      (onMessage envStd (stBound true) 0 (.msg (.sendMessage "hey"))).2 =
        [TraceItem.broadcast sid0 (.messageReceived msg) none] ∧
      msg.role = .assistant ∧
      msg.content = "[Marin]: " ++ "hey" ∧
      (onMessage envStd (stBound true) 0 (.msg (.sendMessage "hey"))).1.messages =
        (stBound true).messages ++ [msg] ∧
      (∀ h, TraceItem.genCall h ∉
        (onMessage envStd (stBound true) 0 (.msg (.sendMessage "hey"))).2) ∧
      (∀ s' b e, TraceItem.broadcast s' (.typingStart b) e ∉
        (onMessage envStd (stBound true) 0 (.msg (.sendMessage "hey"))).2) ∧
      (∀ s' b e, TraceItem.broadcast s' (.typingStop b) e ∉
        (onMessage envStd (stBound true) 0 (.msg (.sendMessage "hey"))).2) :=
  admin_send_assistant_no_ai envStd (stBound true) 0 (csBound true) sid0 sess0
    "hey" rfl rfl rfl (by decide) rfl (by decide) rfl rfl rfl

/-- C2 counterexample: joining a nonexistent session with a correct admin
credential does modify the ConnectionState: the admin flag is set by the
credential step before the session lookup fails.  The caller still gets
SESSION_NOT_FOUND, but the flag has changed from false to true. -/
theorem join_missing_session_sets_admin_flag_cex :
    stUnbound.clients 0 =
      some { sessionId := none, isAdmin := false, ip := "9.9.9.9" } ∧
    (onMessage envStd stUnbound 0
        (.msg (.joinSession ⟨sid0, some true, some "sekret"⟩))).2 =
      [TraceItem.send 0 (.error "SESSION_NOT_FOUND" "Chat session not found")] ∧
    (onMessage envStd stUnbound 0
        (.msg (.joinSession ⟨sid0, some true, some "sekret"⟩))).1.clients 0 =
      some { sessionId := none, isAdmin := true, ip := "9.9.9.9" } := by
  decide

/-- C2 amended: a join naming a session absent from the directory is
answered with SESSION_NOT_FOUND sent to the caller only; the binding, the
membership sets, the session store, the message store and the rate-limiter
state are unchanged, and the only ConnectionState change is the admin flag,
which is set exactly when the join claimed admin with a correct
credential. -/
theorem join_missing_session_amended (env : Env) (st : ServerState)
    (c : ConnId) (cs : ClientState) (p : JoinPayload)
    (hc : st.clients c = some cs)
    (hu : isUuid p.sessionId = true)
    (hs : st.sessions p.sessionId = none)
    (hk : p.isAdmin = some true → adminKeyOk env p.adminKey = true) :
    (onMessage env st c (.msg (.joinSession p))).2 =
      [TraceItem.send c (.error "SESSION_NOT_FOUND" "Chat session not found")] ∧
    (onMessage env st c (.msg (.joinSession p))).1.sessionClients =
      st.sessionClients ∧
    (onMessage env st c (.msg (.joinSession p))).1.sessions = st.sessions ∧
    (onMessage env st c (.msg (.joinSession p))).1.messages = st.messages ∧
    (onMessage env st c (.msg (.joinSession p))).1.redis = st.redis ∧
    (onMessage env st c (.msg (.joinSession p))).1.clients c =
      some { cs with isAdmin := cs.isAdmin || decide (p.isAdmin = some true) } ∧
    (∀ c', c' ≠ c →
      (onMessage env st c (.msg (.joinSession p))).1.clients c' =
        st.clients c') := by
  by_cases hadm : p.isAdmin = some true
  · have hkk := hk hadm
    simp [onMessage, handleMessage, handleJoinSession, joinAfterAdmin,
      setClient, sendError, hc, hu, hadm, hkk, hs]
    intro c' hne
    simp [hne]
  · simp [onMessage, handleMessage, handleJoinSession, joinAfterAdmin,
      sendError, hc, hu, hadm, hs]

/-- C2 witness: the amended behaviour at a concrete unbound connection and
a correct admin credential. -/
theorem join_missing_session_amended_witness :
    (onMessage envStd stUnbound 0
        (.msg (.joinSession ⟨sid0, some true, some "sekret"⟩))).2 =
      [TraceItem.send 0 (.error "SESSION_NOT_FOUND" "Chat session not found")] ∧
    (onMessage envStd stUnbound 0
        (.msg (.joinSession ⟨sid0, some true, some "sekret"⟩))).1.clients 0 =
      some { csUnbound with isAdmin :=
        csUnbound.isAdmin || decide ((some true : Option Bool) = some true) } := by
  have h := join_missing_session_amended envStd stUnbound 0 csUnbound
    ⟨sid0, some true, some "sekret"⟩ rfl (by decide) rfl (fun _ => by decide)
  exact ⟨h.1, h.2.2.2.2.2.1⟩


/-- C5 counterexample: with the rate-limiter store unreachable, a
SendMessage on a bound connection to an ACTIVE session is not treated as
allowed: nothing is persisted or broadcast and the sender receives the
INVALID_MESSAGE error envelope produced by the transport-level catch. -/
theorem redis_down_send_fails_closed_cex :
    (onMessage envDown (stBound false) 0 (.msg (.sendMessage "hi"))).2 =
      [TraceItem.send 0 (.error "INVALID_MESSAGE" "Failed to process message")] ∧
    (onMessage envDown (stBound false) 0 (.msg (.sendMessage "hi"))).1.messages =
      [] := by
  decide

/-- C5 amended: when the rate-limiter backing store is unreachable, a
SendMessage that reaches the rate-limit step fails closed: the raised check
escapes the handler, the transport-level catch answers with INVALID_MESSAGE,
and the state is completely unchanged. -/
theorem redis_down_send_fails_closed (env : Env) (st : ServerState)
    (c : ConnId) (cs : ClientState) (sid : String) (content : String)
    (hc : st.clients c = some cs) (hsid : cs.sessionId = some sid)
    (hval : validContent content = true) (hred : env.redisUp = false) :
    onMessage env st c (.msg (.sendMessage content)) =
      (st, [TraceItem.send c (.error "INVALID_MESSAGE" "Failed to process message")]) := by
  simp [onMessage, handleMessage, handleSendMessage, sendError, hc, hsid,
    hval, hred]

/-- C5 witness: the fail-closed behaviour at a concrete bound connection. -/
theorem redis_down_send_fails_closed_witness :
    onMessage envDown (stBound false) 0 (.msg (.sendMessage "hi")) =
      (stBound false,
        [TraceItem.send 0 (.error "INVALID_MESSAGE" "Failed to process message")]) :=
  redis_down_send_fails_closed envDown (stBound false) 0 (csBound false) sid0
    "hi" rfl rfl (by decide) rfl


/-- C6 counterexample: when message persistence fails, the sender receives
the INVALID_MESSAGE error envelope from the transport-level catch, not an
INTERNAL_ERROR envelope, and nothing is persisted. -/
theorem persist_failure_invalid_message_cex :
    (onMessage envNoPersist (stBound false) 0 (.msg (.sendMessage "hi"))).2 =
      [TraceItem.send 0 (.error "INVALID_MESSAGE" "Failed to process message")] ∧
    (onMessage envNoPersist (stBound false) 0
        (.msg (.sendMessage "hi"))).1.messages = [] := by
  decide

/-- C6 amended: a SendMessage whose persistence call fails (after passing
binding, validation, rate limit and the ACTIVE check) is answered with the
INVALID_MESSAGE error envelope — the escaped storage error is caught by the
transport-level handler, there being no INTERNAL_ERROR path — and no message
is persisted. -/
theorem persist_failure_invalid_message (env : Env) (st : ServerState)
    (c : ConnId) (cs : ClientState) (sid : String) (s : Session)
    (content : String)
    (hc : st.clients c = some cs) (hsid : cs.sessionId = some sid)
    (hval : validContent content = true) (hred : env.redisUp = true)
    (hallow : (checkRateLimit st.redis ("ws-message:" ++ cs.ip) 30 60 env.now).2.allowed = true)
    (hs : st.sessions sid = some s) (hact : s.status = .active)
    (hper : env.persistOk = false) :
    (onMessage env st c (.msg (.sendMessage content))).2 =
      [TraceItem.send c (.error "INVALID_MESSAGE" "Failed to process message")] ∧
    (onMessage env st c (.msg (.sendMessage content))).1.messages =
      st.messages := by
  simp [onMessage, handleMessage, handleSendMessage, sendError, hc, hsid,
    hval, hred, hallow, hs, hact, hper]

/-- C6 witness: the persistence-failure behaviour at a concrete bound
connection. -/
theorem persist_failure_invalid_message_witness :
    (onMessage envNoPersist (stBound false) 0 (.msg (.sendMessage "hi"))).2 =
      [TraceItem.send 0 (.error "INVALID_MESSAGE" "Failed to process message")] ∧
    (onMessage envNoPersist (stBound false) 0
        (.msg (.sendMessage "hi"))).1.messages = (stBound false).messages :=
  persist_failure_invalid_message envNoPersist (stBound false) 0
    (csBound false) sid0 sess0 "hi" rfl rfl (by decide) rfl (by decide) rfl
    rfl rfl


/-- C1: when the session already holds twenty messages and a visitor sends a
twenty-first, the one generator invocation of the run receives the twenty
OLDEST rows — the ascending-order query with a take of 20 returns the first
rows — so the just-persisted user message is dropped from the history,
although it is in the store. -/
theorem sendMessage_history_truncation_drops_newest :
    (onMessage envStd stC1 0 (.msg (.sendMessage "NEW"))).2.countP isGenCall = 1 ∧
    TraceItem.genCall (List.replicate 20 ("user", "old")) ∈
      (onMessage envStd stC1 0 (.msg (.sendMessage "NEW"))).2 ∧
    (("user", "NEW") ∈ List.replicate 20 (("user", "old") : String × String)) = False ∧
    ({ id := 20, sessionId := sid0, role := .user, content := "NEW" } : Message) ∈
      (onMessage envStd stC1 0 (.msg (.sendMessage "NEW"))).1.messages := by
  decide

/-- C3: any SendMessage run whose trace contains a response-generator
invocation (it reached the generator step, so the sender was a non-admin)
emits exactly one TYPING_START broadcast and exactly one TYPING_STOP
broadcast, and they bracket the generator call — whatever the generator
outcome (text, empty text, or failure). -/
theorem sendMessage_typing_bracket (env : Env) (st : ServerState) (c : ConnId)
    (content : String)
    (hgen : (onMessage env st c (.msg (.sendMessage content))).2.countP isGenCall ≠ 0) :
    (onMessage env st c (.msg (.sendMessage content))).2.countP isTypingStartB = 1 ∧
    (onMessage env st c (.msg (.sendMessage content))).2.countP isTypingStopB = 1 ∧
    ∃ sid h,
      List.Sublist
        [TraceItem.broadcast sid (.typingStart false) none,
         TraceItem.genCall h,
         TraceItem.broadcast sid (.typingStop false) none]
        (onMessage env st c (.msg (.sendMessage content))).2 := by
  cases hc : st.clients c with
  | none => simp [onMessage, handleMessage, hc] at hgen
  | some cs =>
    cases hsid : cs.sessionId with
    | none =>
        simp [onMessage, handleMessage, handleSendMessage, sendError, hc, hsid,
          isGenCall] at hgen
    | some sid =>
      by_cases hval : validContent content = true
      · by_cases hred : env.redisUp = true
        · by_cases hallow :
            (checkRateLimit st.redis ("ws-message:" ++ cs.ip) 30 60 env.now).2.allowed = true
          · cases hsess : st.sessions sid with
            | none =>
                simp [onMessage, handleMessage, handleSendMessage, sendError, hc, hsid,
                  hval, hred, hallow, hsess, isGenCall] at hgen
            | some s =>
              by_cases hact : s.status = SessionStatus.active
              · by_cases hper : env.persistOk = true
                · by_cases hadm : cs.isAdmin = true
                  · simp [onMessage, handleMessage, handleSendMessage, sendError, hc,
                      hsid, hval, hred, hallow, hsess, hact, hper, hadm,
                      isGenCall] at hgen
                  · have hadm' : cs.isAdmin = false := by
                      cases hb : cs.isAdmin
                      · rfl
                      · exact absurd hb hadm
                    have trred : ∀ Q : List TraceItem → Prop,
                        (∀ rest, (∀ t ∈ rest, isTypingStartB t = false ∧
                            isTypingStopB t = false ∧ isGenCall t = false) →
                          Q ([TraceItem.broadcast sid
                                (.messageReceived
                                  { id := st.nextMsgId, sessionId := sid
                                  , role := .user, content := content }) none,
                              TraceItem.broadcast sid (.typingStart false) none,
                              TraceItem.genCall
                                (((messagesOf
                                    { st with
                                      messages := st.messages ++
                                        [{ id := st.nextMsgId, sessionId := sid
                                         , role := .user, content := content }]
                                    , redis := (checkRateLimit st.redis
                                        ("ws-message:" ++ cs.ip) 30 60 env.now).1
                                    , nextMsgId := st.nextMsgId + 1 } sid).take 20).map
                                  (fun m => (m.role.lower, m.content))),
                              TraceItem.broadcast sid (.typingStop false) none] ++ rest)) →
                        Q (onMessage env st c (.msg (.sendMessage content))).2 := by
                      intro Q hQ
                      cases hout : env.aiOutcome with
                      | ok text =>
                          by_cases htext : text = ""
                          · simpa [onMessage, handleMessage, handleSendMessage,
                              getAIResponse, hc, hsid, hval, hred, hallow,
                              hsess, hact, hper, hadm', hout, htext]
                              using hQ [] (by simp)
                          · simpa [onMessage, handleMessage, handleSendMessage,
                              getAIResponse, hc, hsid, hval, hred, hallow,
                              hsess, hact, hper, hadm', hout, htext]
                              using hQ [TraceItem.broadcast sid
                                (.aiResponse
                                  { id := st.nextMsgId + 1, sessionId := sid
                                  , role := .assistant, content := text }) none]
                                (by simp [isTypingStartB, isTypingStopB, isGenCall])
                      | networkFailure =>
                          simpa [onMessage, handleMessage, handleSendMessage,
                            getAIResponse, hc, hsid, hval, hred, hallow,
                            hsess, hact, hper, hadm', hout]
                            using hQ [] (by simp)
                      | httpError =>
                          simpa [onMessage, handleMessage, handleSendMessage,
                            getAIResponse, hc, hsid, hval, hred, hallow,
                            hsess, hact, hper, hadm', hout]
                            using hQ [] (by simp)
                      | emptyContent =>
                          simpa [onMessage, handleMessage, handleSendMessage,
                            getAIResponse, hc, hsid, hval, hred, hallow,
                            hsess, hact, hper, hadm', hout]
                            using hQ [] (by simp)
                    refine ⟨?_, ?_, ?_⟩
                    · refine trred (fun tr => List.countP isTypingStartB tr = 1)
                        (fun rest hrest => ?_)
                      simp [isTypingStartB, List.countP_cons,
                        List.countP_eq_zero.mpr (fun t ht => by
                          simpa using (hrest t ht).1)]
                    · refine trred (fun tr => List.countP isTypingStopB tr = 1)
                        (fun rest hrest => ?_)
                      simp [isTypingStopB, List.countP_cons,
                        List.countP_eq_zero.mpr (fun t ht => by
                          simpa using (hrest t ht).2.1)]
                    · refine trred (fun tr => ∃ sd h, List.Sublist
                        [TraceItem.broadcast sd (.typingStart false) none,
                         TraceItem.genCall h,
                         TraceItem.broadcast sd (.typingStop false) none] tr)
                        (fun rest hrest => ?_)
                      exact ⟨sid, _, .cons _ (.cons₂ _ (.cons₂ _
                        (.cons₂ _ (List.nil_sublist _))))⟩
                · simp [onMessage, handleMessage, handleSendMessage, sendError, hc,
                    hsid, hval, hred, hallow, hsess, hact, hper,
                    isGenCall] at hgen
              · simp [onMessage, handleMessage, handleSendMessage, sendError, hc, hsid,
                  hval, hred, hallow, hsess, hact, isGenCall] at hgen
          · simp [onMessage, handleMessage, handleSendMessage, sendError, hc, hsid,
              hval, hred, hallow, isGenCall] at hgen
        · simp [onMessage, handleMessage, handleSendMessage, sendError, hc, hsid, hval,
            hred, isGenCall] at hgen
      · simp [onMessage, handleMessage, handleSendMessage, sendError, hc, hsid, hval,
          isGenCall] at hgen

/-- C3 witness: the typing bracket at a concrete non-admin send that
reaches the generator. -/
theorem sendMessage_typing_bracket_witness :
    (onMessage envStd (stBound false) 0 (.msg (.sendMessage "hello"))).2.countP
      isTypingStartB = 1 ∧
    (onMessage envStd (stBound false) 0 (.msg (.sendMessage "hello"))).2.countP
      isTypingStopB = 1 :=
  ⟨(sendMessage_typing_bracket envStd (stBound false) 0 "hello" (by decide)).1,
   (sendMessage_typing_bracket envStd (stBound false) 0 "hello" (by decide)).2.1⟩


set_option maxHeartbeats 4000000 in
/-- C4: the rate-limit check records the current attempt unconditionally
(the new score list is the kept window plus the current timestamp, other
keys untouched) and allows exactly when the pre-insertion count of attempts
still inside the trailing window is strictly below the limit; consequently,
with the code's limit of 30 per 60 seconds, thirty SendMessage calls from
one client identity inside one window each persist their message, and the
thirty-first is answered RATE_LIMITED with nothing persisted and nothing
broadcast. -/
theorem checkRateLimit_records_and_bounds :
    (∀ (redis : String → List Nat) (key : String) (limit windowSeconds now : Nat),
      (checkRateLimit redis key limit windowSeconds now).1 ("ratelimit:" ++ key) =
        ((redis ("ratelimit:" ++ key)).filter
          (fun ts : Nat =>
            decide (((now : Int) - (windowSeconds : Int) * 1000) < (ts : Int)))) ++ [now] ∧
      (∀ k, k ≠ "ratelimit:" ++ key →
        (checkRateLimit redis key limit windowSeconds now).1 k = redis k) ∧
      ((checkRateLimit redis key limit windowSeconds now).2.allowed = true ↔
        ((redis ("ratelimit:" ++ key)).filter
          (fun ts : Nat =>
            decide (((now : Int) - (windowSeconds : Int) * 1000) < (ts : Int)))).length < limit)) ∧
    (∀ k, k < 30 → (sendIter envStd 0 "hi" (k + 1) (stBound true)).messages.length = k + 1) ∧
    (sendStep envStd 0 "hi" (sendIter envStd 0 "hi" 30 (stBound true))).2 =
      [TraceItem.send 0 (.error "RATE_LIMITED" "Too many messages. Please slow down.")] ∧
    (sendStep envStd 0 "hi" (sendIter envStd 0 "hi" 30 (stBound true))).1.messages.length = 30 := by
  refine ⟨?_, by decide, by decide, by decide⟩
  intro redis key limit windowSeconds now
  refine ⟨by simp [checkRateLimit], ?_, ?_⟩
  · intro k hk
    simp [checkRateLimit, hk]
  · simp [checkRateLimit]

/-- C4 witness: the recording equation at a concrete empty store. -/
theorem checkRateLimit_records_and_bounds_witness :
    (checkRateLimit (fun _ => []) "k" 2 60 100000).1 ("ratelimit:" ++ "k") =
      [100000] := by
  have h := checkRateLimit_records_and_bounds
  simpa using (h.1 (fun _ => []) "k" 2 60 100000).1

/-- Helper: the registry invariant gives at-most-one-set membership. -/
theorem atMostOne_of_inv (st : ServerState) (h : RegistryInv st) :
    AtMostOneSet st := by
  intro c s1 s2 l1 l2 h1 h2 m1 m2
  obtain ⟨cs1, hc1, hb1⟩ := h.2 s1 l1 c h1 m1
  obtain ⟨cs2, hc2, hb2⟩ := h.2 s2 l2 c h2 m2
  rw [hc1] at hc2
  injection hc2 with e
  subst e
  rw [hb1] at hb2
  injection hb2

/-- Helper: leaveSession does not touch the clients map. -/
theorem leaveSession_clients (st : ServerState) (c : ConnId) (sid : String) :
    (leaveSession st c sid).clients = st.clients := by
  simp only [leaveSession]
  split
  · rfl
  · split <;> rfl

/-- Helper: leaveSession leaves the member sets of other sessions alone. -/
theorem leaveSession_sc_other (st : ServerState) (c : ConnId) (sid s : String)
    (hs : s ≠ sid) :
    (leaveSession st c sid).sessionClients s = st.sessionClients s := by
  cases hsc : st.sessionClients sid with
  | none => simp [leaveSession, hsc]
  | some l0 =>
      simp only [leaveSession, hsc]
      split <;> simp [hs]

/-- Helper: members of a set after leaveSession were members before. -/
theorem leaveSession_mem (st : ServerState) (c : ConnId) (sid s : String)
    (l : List ConnId) (x : ConnId)
    (h : (leaveSession st c sid).sessionClients s = some l) (hx : x ∈ l) :
    ∃ l0, st.sessionClients s = some l0 ∧ x ∈ l0 := by
  cases hsc : st.sessionClients sid with
  | none =>
      refine ⟨l, ?_, hx⟩
      simpa [leaveSession, hsc] using h
  | some l0 =>
      by_cases hs : s = sid
      · subst hs
        simp only [leaveSession, hsc] at h
        revert h
        split
        · intro h
          simp at h
        · intro h
          simp at h
          refine ⟨l0, hsc, ?_⟩
          rw [← h] at hx
          exact (List.mem_filter.1 hx).1
      · refine ⟨l, ?_, hx⟩
        simp only [leaveSession, hsc] at h
        revert h
        split <;> · intro h; simpa [hs] using h

/-- Helper: after leaveSession, the leaving connection is not in the member
set of the left session. -/
theorem leaveSession_not_mem (st : ServerState) (c : ConnId) (sid : String)
    (l : List ConnId)
    (h : (leaveSession st c sid).sessionClients sid = some l) : c ∉ l := by
  cases hsc : st.sessionClients sid with
  | none =>
      intro hc
      obtain ⟨l0, h0, _⟩ := leaveSession_mem st c sid sid l c h hc
      rw [hsc] at h0
      cases h0
  | some l0 =>
      simp only [leaveSession, hsc] at h
      revert h
      split
      · intro h
        simp at h
      · intro h
        simp at h
        intro hc
        rw [← h] at hc
        have := (List.mem_filter.1 hc).2
        simp at this

/-- Helper: leaveSession keeps every remaining member set non-empty. -/
theorem leaveSession_nonempty (st : ServerState) (c : ConnId) (sid : String)
    (hne : ∀ s l, st.sessionClients s = some l → l ≠ [])
    (s : String) (l : List ConnId)
    (h : (leaveSession st c sid).sessionClients s = some l) : l ≠ [] := by
  cases hsc : st.sessionClients sid with
  | none => exact hne s l (by simpa [leaveSession, hsc] using h)
  | some l0 =>
      by_cases hs : s = sid
      · subst hs
        simp only [leaveSession, hsc] at h
        revert h
        split
        · intro h
          simp at h
        · next hcond =>
            intro h
            simp at h
            rw [← h]
            simpa using hcond
      · refine hne s l ?_
        simp only [leaveSession, hsc] at h
        revert h
        split <;> · intro h; simpa [hs] using h

/-- Helper: leaveSession preserves the registry invariant. -/
theorem leaveSession_inv (st : ServerState) (c : ConnId) (sid : String)
    (hinv : RegistryInv st) : RegistryInv (leaveSession st c sid) := by
  constructor
  · exact leaveSession_nonempty st c sid hinv.1
  · intro s l x h hx
    obtain ⟨l0, h0, hx0⟩ := leaveSession_mem st c sid s l x h hx
    obtain ⟨cs0, hc0, hb0⟩ := hinv.2 s l0 x h0 hx0
    exact ⟨cs0, by rw [leaveSession_clients]; exact hc0, hb0⟩

/-- Helper: an unbound registered connection is in no member set. -/
theorem not_mem_unbound (st : ServerState) (c : ConnId) (cs : ClientState)
    (hc : st.clients c = some cs) (hun : cs.sessionId = none)
    (hinv : RegistryInv st) :
    ∀ s l, st.sessionClients s = some l → c ∉ l := by
  intro s l h hmem
  obtain ⟨cs0, hc0, hb0⟩ := hinv.2 s l c h hmem
  rw [hc] at hc0
  injection hc0 with e
  subst e
  rw [hun] at hb0
  cases hb0

/-- Helper: after leaving its bound session, a connection is in no member
set at all. -/
theorem not_mem_after_leave (st : ServerState) (c : ConnId) (cs : ClientState)
    (old : String) (hc : st.clients c = some cs)
    (hold : cs.sessionId = some old) (hinv : RegistryInv st) :
    ∀ s l, (leaveSession st c old).sessionClients s = some l → c ∉ l := by
  intro s l h hmem
  by_cases hs : s = old
  · subst hs
    exact leaveSession_not_mem st c s l h hmem
  · rw [leaveSession_sc_other st c old s hs] at h
    obtain ⟨cs0, hc0, hb0⟩ := hinv.2 s l c h hmem
    rw [hc] at hc0
    injection hc0 with e
    subst e
    rw [hold] at hb0
    injection hb0 with e2
    exact hs e2.symm

/-- Helper: replacing the clients map in a way that only changes the entry
of a connection belonging to no member set preserves the invariant. -/
theorem unbind_inv (st1 : ServerState) (c : ConnId)
    (f : ConnId → Option ClientState) (hinv : RegistryInv st1)
    (hnot : ∀ s l, st1.sessionClients s = some l → c ∉ l)
    (hf : ∀ x, x ≠ c → f x = st1.clients x) :
    RegistryInv { st1 with clients := f } := by
  constructor
  · exact fun s l h => hinv.1 s l h
  · intro s l x h hx
    obtain ⟨cs0, hc0, hb0⟩ := hinv.2 s l x h hx
    by_cases hxc : x = c
    · subst hxc
      exact absurd hx (hnot s l h)
    · exact ⟨cs0, (hf x hxc).trans hc0, hb0⟩

/-- Helper: binding a connection that is in no member set to a session and
inserting it into that session's set preserves the invariant. -/
theorem rebind_inv (st1 : ServerState) (c : ConnId) (cs2 : ClientState)
    (psid : String) (hinv : RegistryInv st1) (hb : cs2.sessionId = some psid)
    (hnot : ∀ s l, st1.sessionClients s = some l → c ∉ l) :
    RegistryInv (joinSet (setClient st1 c cs2) psid c) := by
  constructor
  · intro s l h
    by_cases hs : s = psid
    · subst hs
      simp only [joinSet, setClient] at h
      simp at h
      subst h
      split
      · next hcmem => exact List.ne_nil_of_mem (by simpa using hcmem)
      · simp
    · refine hinv.1 s l ?_
      simpa [joinSet, setClient, hs] using h
  · intro s l x h hx
    by_cases hs : s = psid
    · subst hs
      simp only [joinSet, setClient] at h
      simp at h
      subst h
      by_cases hxc : x = c
      · subst hxc
        exact ⟨cs2, by simp [joinSet, setClient], hb⟩
      · have hxcur : x ∈ (st1.sessionClients s).getD [] := by
          revert hx
          split
          · exact fun hx => hx
          · intro hx
            rcases List.mem_append.1 hx with h1 | h1
            · exact h1
            · simp at h1
              exact absurd h1 hxc
        cases hc1 : st1.sessionClients s with
        | none =>
            rw [hc1] at hxcur
            simp at hxcur
        | some cur0 =>
            rw [hc1] at hxcur
            simp at hxcur
            obtain ⟨cs0, hc0, hb0⟩ := hinv.2 s cur0 x hc1 hxcur
            exact ⟨cs0, by simpa [joinSet, setClient, hxc] using hc0, hb0⟩
    · have h1 : st1.sessionClients s = some l := by
        simpa [joinSet, setClient, hs] using h
      obtain ⟨cs0, hc0, hb0⟩ := hinv.2 s l x h1 hx
      by_cases hxc : x = c
      · subst hxc
        exact absurd hx (hnot s l h1)
      · exact ⟨cs0, by simpa [joinSet, setClient, hxc] using hc0, hb0⟩

set_option maxHeartbeats 1200000 in
/-- Helper: handleSendMessage never touches the clients map or the member
sets. -/
theorem handleSendMessage_fields (env : Env) (st : ServerState) (c : ConnId)
    (cs : ClientState) (content : String) :
    (handleSendMessage env st c cs content).st.clients = st.clients ∧
    (handleSendMessage env st c cs content).st.sessionClients =
      st.sessionClients := by
  constructor <;>
  · simp only [handleSendMessage, updateSessionTime]
    repeat' split
    all_goals rfl

/-- Helper: the join tail preserves the registry invariant. -/
theorem joinAfterAdmin_inv (st : ServerState) (c : ConnId) (cs : ClientState)
    (p : JoinPayload) (hc : st.clients c = some cs) (hinv : RegistryInv st) :
    RegistryInv (joinAfterAdmin st c cs p).st := by
  simp only [joinAfterAdmin]
  cases hsess : st.sessions p.sessionId with
  | none => exact hinv
  | some s =>
      cases hold : cs.sessionId with
      | none =>
          exact rebind_inv st c _ p.sessionId hinv rfl
            (not_mem_unbound st c cs hc hold hinv)
      | some old =>
          exact rebind_inv (leaveSession st c old) c _ p.sessionId
            (leaveSession_inv st c old hinv) rfl
            (not_mem_after_leave st c cs old hc hold hinv)

/-- Helper: handleJoinSession preserves the registry invariant. -/
theorem handleJoinSession_inv (env : Env) (st : ServerState) (c : ConnId)
    (cs : ClientState) (p : JoinPayload)
    (hc : st.clients c = some cs) (hinv : RegistryInv st) :
    RegistryInv (handleJoinSession env st c cs p).st := by
  simp only [handleJoinSession]
  split
  · exact hinv
  · split
    · split
      · refine joinAfterAdmin_inv _ c _ p (by simp [setClient]) ?_
        constructor
        · exact fun s l h => hinv.1 s l h
        · intro s l x h hx
          obtain ⟨cs0, hc0, hb0⟩ := hinv.2 s l x h hx
          by_cases hxc : x = c
          · subst hxc
            rw [hc] at hc0
            injection hc0 with e
            subst e
            exact ⟨{ cs with isAdmin := true }, by simp [setClient], hb0⟩
          · exact ⟨cs0, by simpa [setClient, hxc] using hc0, hb0⟩
      · exact hinv
    · exact joinAfterAdmin_inv st c cs p hc hinv

/-- Helper: one inbound envelope preserves the registry invariant. -/
theorem handleMessage_inv (env : Env) (st : ServerState) (cid : ConnId)
    (m : WsIn) (hinv : RegistryInv st) :
    RegistryInv (handleMessage env st cid m).st := by
  cases m with
  | joinSession p =>
      cases hc : st.clients cid with
      | none => simpa [handleMessage, hc] using hinv
      | some cs =>
          simp only [handleMessage, hc]
          exact handleJoinSession_inv env st cid cs p hc hinv
  | leaveSession =>
      cases hc : st.clients cid with
      | none => simpa [handleMessage, hc] using hinv
      | some cs =>
          simp only [handleMessage, hc]
          cases hold : cs.sessionId with
          | some sid =>
              show RegistryInv (setClient (leaveSession st cid sid) cid
                { cs with sessionId := none })
              simp only [setClient]
              exact unbind_inv (leaveSession st cid sid) cid _
                (leaveSession_inv st cid sid hinv)
                (not_mem_after_leave st cid cs sid hc hold hinv)
                (fun x hx => by simp [hx])
          | none => exact hinv
  | sendMessage content =>
      cases hc : st.clients cid with
      | none => simpa [handleMessage, hc] using hinv
      | some cs =>
          simp only [handleMessage, hc]
          have hf := handleSendMessage_fields env st cid cs content
          refine ⟨?_, ?_⟩
          · intro s l h
            rw [hf.2] at h
            exact hinv.1 s l h
          · intro s l x h hx
            rw [hf.2] at h
            obtain ⟨cs0, hc0, hb0⟩ := hinv.2 s l x h hx
            exact ⟨cs0, by rw [hf.1]; exact hc0, hb0⟩
  | typingStart =>
      cases hc : st.clients cid with
      | none => simpa [handleMessage, hc] using hinv
      | some cs =>
          simp only [handleMessage, hc]
          cases hold : cs.sessionId <;> exact hinv
  | typingStop =>
      cases hc : st.clients cid with
      | none => simpa [handleMessage, hc] using hinv
      | some cs =>
          simp only [handleMessage, hc]
          cases hold : cs.sessionId <;> exact hinv
  | unknown t =>
      cases hc : st.clients cid with
      | none => simpa [handleMessage, hc] using hinv
      | some cs =>
          simp only [handleMessage, hc]
          exact hinv

/-- C7: every operation — connect of a fresh transport, any inbound frame,
or close — preserves the registry invariant (sets non-empty, every member
registered and bound to exactly the keying session), and hence afterwards
every connection is in at most one member set; in particular a join to a
second session leaves the first session's set without the connection, its
binding now naming the second session. -/
theorem registry_invariant_preserved (env : Env) (st : ServerState) (op : Op)
    (hinv : RegistryInv st)
    (hfresh : ∀ cid ip, op = .connect cid ip → st.clients cid = none) :
    RegistryInv (applyOp env st op) ∧ AtMostOneSet (applyOp env st op) := by
  suffices h : RegistryInv (applyOp env st op) from
    ⟨h, atMostOne_of_inv _ h⟩
  cases op with
  | connect cid ip =>
      have hn := hfresh cid ip rfl
      simp only [applyOp, onConnect]
      constructor
      · exact fun s l h => hinv.1 s l h
      · intro s l x h hx
        obtain ⟨cs0, hc0, hb0⟩ := hinv.2 s l x h hx
        by_cases hxc : x = cid
        · subst hxc
          rw [hn] at hc0
          cases hc0
        · exact ⟨cs0, by simpa [hxc] using hc0, hb0⟩
  | close cid =>
      cases hc : st.clients cid with
      | none =>
          simp only [applyOp, onClose, hc]
          refine unbind_inv st cid _ hinv ?_ (fun x hx => by simp [hx])
          intro s l h hmem
          obtain ⟨cs0, hc0, _⟩ := hinv.2 s l cid h hmem
          rw [hc] at hc0
          cases hc0
      | some cs =>
          simp only [applyOp, onClose, hc]
          cases hold : cs.sessionId with
          | none =>
              exact unbind_inv st cid _ hinv
                (not_mem_unbound st cid cs hc hold hinv)
                (fun x hx => by simp [hx])
          | some old =>
              exact unbind_inv (leaveSession st cid old) cid _
                (leaveSession_inv st cid old hinv)
                (not_mem_after_leave st cid cs old hc hold hinv)
                (fun x hx => by simp [hx])
  | message cid raw =>
      cases raw with
      | malformed => simpa [applyOp, onMessage] using hinv
      | msg m =>
          have hm := handleMessage_inv env st cid m hinv
          have he : (applyOp env st (.message cid (.msg m))) =
              (handleMessage env st cid m).st := by
            simp only [applyOp, onMessage]
            split <;> rfl
          rw [he]
          exact hm

/-- Helper: the one-connection bound fixture satisfies the registry
invariant. -/
theorem stBound_inv (adm : Bool) : RegistryInv (stBound adm) := by
  constructor
  · intro s l h
    simp only [stBound] at h
    revert h
    split
    · intro h
      injection h with e
      subst e
      simp
    · intro h
      cases h
  · intro s l x h hx
    simp only [stBound] at h
    revert h
    split
    · next hs =>
        intro h
        injection h with e
        subst e
        simp at hx
        subst hx
        refine ⟨csBound adm, by simp [stBound], ?_⟩
        rw [hs]
        rfl
    · intro h
      cases h

/-- C7 witness: invariant preservation at a concrete close operation on the
bound fixture. -/
theorem registry_invariant_preserved_witness :
    RegistryInv (applyOp envStd (stBound false) (.close 0)) ∧
    AtMostOneSet (applyOp envStd (stBound false) (.close 0)) :=
  registry_invariant_preserved envStd (stBound false) (.close 0)
    (stBound_inv false) (fun _ _ h => nomatch h)
